import Mathlib

/-!
Verification of the boost-worker service (`src/app.py`) against its
natural-language specification.

The development shallowly embeds the parts of `app.py` relevant to the
frozen claims.  External effects (the network, the browser driver, the
DOM) are modelled by an oracle record `WorkerEnv` supplying the outcome
of each call the code makes; real time in the poll loop is abstracted to
a fixed number of poll rounds (timeout 45 with interval 1.0 gives at
most 45 probe evaluations).  Exception texts raised by the driver are
opaque strings supplied by the oracle; Python tracebacks are modelled by
the fixed placeholder entry "traceback"; screenshot capture is modelled
as always succeeding and producing the oracle string.
-/

set_option autoImplicit false

namespace BoostApp

/-! ### Configurable defaults (app.py lines 30-36) -/

def DEFAULT_WAIT_TIME : Int := 25

def DEFAULT_JS_POLL_TIMEOUT : Nat := 45

/-- One poll per `DEFAULT_JS_POLL_INTERVAL = 1.0` second inside a
`DEFAULT_JS_POLL_TIMEOUT = 45` second window gives at most 45 probe
evaluations. -/
def jsPollMax : Nat := 45

def DEFAULT_MAX_SCROLL_LOOPS : Nat := 60

/-! ### String helpers

Python string primitives used by the worker (`str.lower`, `str.split`
with no argument, `" ".join`, the `in` substring test, slicing `[:60]`)
are embedded structurally over `List Char`. -/

/-- ASCII lowercasing of one character, as `str.lower` acts on the
ASCII range used by the classifier keywords. -/
def lowerChar (c : Char) : Char :=
  if 65 ≤ c.toNat ∧ c.toNat ≤ 90 then Char.ofNat (c.toNat + 32) else c

/-- Whitespace characters recognised by Python `str.split()`. -/
def isSpaceChar (c : Char) : Bool :=
  c.toNat = 32 || c.toNat = 9 || c.toNat = 10 || c.toNat = 13

/-- Split a character list into maximal non-whitespace words, as
Python `str.split()` (empty words are dropped).  The accumulator holds
the current word reversed. -/
def splitWsAux : List Char → List Char → List String
  | [], cur => if cur.isEmpty then [] else [String.mk cur.reverse]
  | c :: rest, cur =>
    if isSpaceChar c then
      if cur.isEmpty then splitWsAux rest []
      else String.mk cur.reverse :: splitWsAux rest []
    else splitWsAux rest (c :: cur)

/-- `" ".join(words)`. -/
def joinWords : List String → String
  | [] => ""
  | [w] => w
  | w :: rest => w ++ " " ++ joinWords rest

/-- `" ".join(text.lower().split())` — the normalisation applied to a
button text at app.py lines 361-362 (the earlier `.strip()` calls are
absorbed: leading and trailing whitespace is discarded by `split`). -/
def normalizeText (raw : String) : String :=
  joinWords (splitWsAux (raw.toList.map lowerChar) [])

/-- Whether `pat` occurs at the start of `s` (character lists). -/
def charsLead : List Char → List Char → Bool
  | [], _ => true
  | _ :: _, [] => false
  | a :: as, b :: bs => a == b && charsLead as bs

/-- Whether `pat` occurs contiguously anywhere in `s` (character
lists). -/
def charsContain (pat : List Char) : List Char → Bool
  | [] => pat.isEmpty
  | b :: bs => charsLead pat (b :: bs) || charsContain pat bs

/-- Python substring test `pat in s`. -/
def containsSub (s pat : String) : Bool :=
  charsContain pat.toList s.toList

/-! ### Detected elements and the Action Classifier (app.py lines 358-374) -/

/-- A collected button element: its JS-read inner text, its raw `class`
attribute (`None` when absent), and the context label that
`find_address_for_button` resolves for it (`None` when absent). -/
structure ButtonInfo where
  rawText : String
  classAttr : Option String
  address : Option String
deriving Repr, DecidableEq

/-- Normalised lowercase whitespace-collapsed text of a button
(app.py lines 361-362). -/
def normOf (b : ButtonInfo) : String :=
  normalizeText b.rawText

/-- `(btn.get_attribute("class") or "").lower()` (app.py line 363). -/
def classStrOf (b : ButtonInfo) : String :=
  String.mk (((b.classAttr.getD ("")).toList).map lowerChar)

/-- `in_progress` flag of app.py line 364. -/
def inProgressOf (b : ButtonInfo) : Bool :=
  containsSub (classStrOf b) ("usage-boost-inprogress")
    || containsSub (normOf b) ("progress")
    || containsSub (normOf b) ("inprogress")

/-- The condition of app.py line 365 deciding that a button is
actionable. -/
def actionableOf (b : ButtonInfo) : Bool :=
  containsSub (normOf b) ("boost") && !(inProgressOf b)

/-- Follows the spec words of section 4.5: the in-progress keywords
matched against the normalised text. -/
def specInProgressKeywords : List String :=
  ["progress", "inprogress"]

/-- Follows the spec words of section 4.5: marker token in the class
string, or an in-progress keyword in the normalised text. -/
def specInProgress (b : ButtonInfo) : Bool :=
  containsSub (classStrOf b) ("usage-boost-inprogress")
    || specInProgressKeywords.any (fun k => containsSub (normOf b) k)

/-- Follows the spec words of section 4.5: target keyword present and
not in progress. -/
def specActionable (b : ButtonInfo) : Bool :=
  containsSub (normOf b) ("boost") && !(specInProgress b)

/-- The classification/collection loop of app.py lines 358-373.
`insp idx` tells whether inspecting button number `idx` (1-based, as in
the source `enumerate(buttons, start=1)`) succeeds; on failure the
`except` branch only logs a warning (`ierr idx` is the exception text).
Returns the boostable list of `(address, normalised text)` pairs in
first-encountered order, together with the log entries of the loop. -/
def collectButtons (insp : Nat → Bool) (ierr : Nat → String) :
    List ButtonInfo → Nat → List (Option String × String) × List String
  | [], _ => ([], [])
  | b :: rest, idx =>
    let tail := collectButtons insp ierr rest (idx + 1)
    if insp idx then
      let norm := normOf b
      if actionableOf b then
        let shown := (b.address).getD ("<none>")
        ((b.address, norm) :: tail.1,
          (s!"[FOUND] btn#{idx} text={norm} addr={shown}") :: tail.2)
      else
        let short := String.mk (norm.toList.take 60)
        let ip := inProgressOf b
        (tail.1, (s!"[SKIP] btn#{idx} text={short} in_progress={ip}") :: tail.2)
    else
      (tail.1, (s!"[WARN] error inspecting btn#{idx}: " ++ ierr idx) :: tail.2)

/-! ### Lazy-load scroller (app.py lines 320-331)

`heights k` is the `document.body.scrollHeight` reading number `k`:
reading 0 happens before the loop, reading `k ≥ 1` inside loop
iteration `k`. -/

/-- The scroll loop body.  `last` is the previous height reading,
`loops` the count so far, and the fuel equals the remaining permitted
iterations (`DEFAULT_MAX_SCROLL_LOOPS - loops`), mirroring the
`while loops < DEFAULT_MAX_SCROLL_LOOPS` guard. -/
def scrollAux (heights : Nat → Nat) : Nat → Nat → Nat → Nat
  | _, loops, 0 => loops
  | last, loops, fuel + 1 =>
    let new := heights (loops + 1)
    if new = last then loops + 1
    else scrollAux heights new (loops + 1) fuel

/-- Number of scroll iterations performed by app.py lines 320-331. -/
def scrollLoop (heights : Nat → Nat) (maxLoops : Nat) : Nat :=
  scrollAux heights (heights 0) 0 maxLoops

/-- Follows the spec words of section 4.4: stop at the first iteration
`k` whose height reading equals the previous one, or at the iteration
cap, whichever comes first. -/
def specScrollStop (heights : Nat → Nat) (maxLoops : Nat) : Nat :=
  match (List.range maxLoops).find? (fun i => heights (i + 1) == heights i) with
  | some i => i + 1
  | none => maxLoops

/-! ### Content-ready poller (app.py lines 333-353) -/

/-- The log entry written for every probe reading. -/
def pollEntry (c : Nat) : String :=
  s!"[JS POLL] buttons={c}"

/-- The JS poll loop: evaluate `probe` at poll rounds `i, i+1, ...`
while fuel (the number of rounds remaining inside the timeout window)
lasts; stop at the first positive reading.  Returns the found round and
count, if any, and the `[JS POLL]` log entries in order. -/
def pollAux (probe : Nat → Nat) : Nat → Nat → Option (Nat × Nat) × List String
  | _, 0 => (none, [])
  | i, fuel + 1 =>
    let c := probe i
    if 0 < c then (some (i, c), [pollEntry c])
    else
      let r := pollAux probe (i + 1) fuel
      (r.1, pollEntry c :: r.2)

/-- The whole poll phase of app.py lines 333-344. -/
def pollLoop (probe : Nat → Nat) (maxPolls : Nat) : Option (Nat × Nat) × List String :=
  pollAux probe 0 maxPolls

/-! ### The clicking phase (app.py lines 383-396) -/

/-- The per-element click loop body.  For the element at loop index `i`
(0-based, as in the source `for i in range(to_click)`), `okf i` tells
whether the scripted-click attempt succeeds and `err i` is the
exception text when it fails.  Returns the number of successful clicks,
the appended addresses (one per successful click, in click order), and
the log entries of the loop (one per element). -/
def clickList (okf : Nat → Bool) (err : Nat → String) :
    List (Option String) → Nat → Nat × List (Option String) × List String
  | [], _ => (0, [], [])
  | a :: rest, i =>
    let r := clickList okf err rest (i + 1)
    if okf i then
      let shown := a.getD ("<address not found>")
      (r.1 + 1, a :: r.2.1, (("Clicked boost for: ") ++ shown) :: r.2.2)
    else
      let j := i + 1
      (r.1, r.2.1, ((s!"Error clicking boost #{j}: ") ++ err i) :: r.2.2)

/-- The steps the source performs on one selected element, in order
(app.py lines 388-390): a scripted `scrollIntoView`, a `time.sleep`,
and a scripted `arguments[0].click()`.  The constructors also name the
strategies the spec claims (native pointer click, overlay removal) so
their absence can be stated. -/
inductive ClickStrategy
  | scrollIntoViewScript
  | pauseStep
  | scriptedClick
  | nativeClick
  | overlayRemoval
deriving DecidableEq, BEq, Repr

/-- The click procedure actually applied to every selected element
(app.py lines 388-390). -/
def clickProcedure : List ClickStrategy :=
  [.scrollIntoViewScript, .pauseStep, .scriptedClick]

/-! ### Worker top-level phases (app.py lines 206-405)

The successive top-level phases of `selenium_boost_worker`, in source
order.  The constructors also name the phase the spec claims between
start-page navigation and sign-in (popup dismissal) so its absence can
be stated. -/

inductive Phase
  | networkPrecheck
  | detectBinaries
  | acquireDriver
  | navigateStart
  | popupDismiss
  | clickSignInLink
  | enterEmail
  | clickSignInFirst
  | enterPassword
  | clickSignInFinal
  | waitDashboard
  | navigateListing
  | lazyScroll
  | jsPoll
  | collectElements
  | classifyElements
  | clickBoosts
  | assembleResult
deriving DecidableEq, BEq, Repr

/-- The phase sequence of `selenium_boost_worker` (app.py lines
216-405): pre-check (216-226), binary detection (228-234), driver
acquisition (237-279), start-page navigation with retries (282-292),
the five sign-in steps (294-311), the dashboard wait gate (313-314),
listing navigation (316-318), scrolling (320-331), JS polling
(333-353), element collection (355-356), classification (358-381),
clicking (383-396) and result assembly (398-405). -/
def workerPhases : List Phase :=
  [.networkPrecheck, .detectBinaries, .acquireDriver, .navigateStart,
   .clickSignInLink, .enterEmail, .clickSignInFirst, .enterPassword,
   .clickSignInFinal, .waitDashboard, .navigateListing, .lazyScroll,
   .jsPoll, .collectElements, .classifyElements, .clickBoosts,
   .assembleResult]

/-! ### The worker as a function of an effect oracle -/

/-- Oracle for every external call the worker makes.  Numbered
arguments identify the call site: `navOk k` is `driver.get` attempt `k`
(1-based), `stepOk s` is sign-in wait step `s` (0-5, in source order),
`inspectOk idx` is the inspection of button `idx` (1-based), `clickOk i`
is the scripted click on loop index `i` (0-based).  The `...Err`
functions provide the corresponding Python exception texts. -/
structure WorkerEnv where
  skipCheck : Bool
  precheckOk : Bool
  precheckErr : String
  chromeBin : Option String
  driverBin : Option String
  navOk : Nat → Bool
  navErr : Nat → String
  stepOk : Nat → Bool
  stepErr : Nat → String
  heights : Nat → Nat
  probe : Nat → Nat
  buttons : List ButtonInfo
  inspectOk : Nat → Bool
  inspectErr : Nat → String
  clickOk : Nat → Bool
  clickErr : Nat → String
  screenshot : String

/-- An exception unwinding to the worker's top-level `except` handler:
the exception text, the log accumulated so far, and whether the driver
had already been instantiated (which decides whether the handler can
capture an error screenshot). -/
structure FailInfo where
  msg : String
  logs : List String
  driverPresent : Bool
deriving Repr, DecidableEq

/-- The network pre-check block (app.py lines 215-226 together with
`network_precheck`, lines 153-202).  The HEAD/GET internals are folded
into the single oracle outcome `precheckOk`. -/
def runPrecheck (env : WorkerEnv) (logs : List String) : Except FailInfo (List String) :=
  if env.skipCheck then
    Except.ok (logs ++ ["SKIP_NETWORK_CHECK=true -> skipping network pre-check"])
  else
    let logs := logs ++ ["Connectivity quick-check to https://www.affordablehousing.com/"]
    if env.precheckOk then Except.ok (logs ++ ["HEAD status_code=200"])
    else
      let inner := ("Network pre-check failed: ") ++ env.precheckErr
      let outer := ("Network pre-check failed for https://www.affordablehousing.com/. Either outbound network is blocked or the site resets connections. Full error: ") ++ inner
      Except.error ⟨outer, logs ++ [("Pre-check failed: ") ++ inner], false⟩

/-- Binary detection (app.py lines 228-234). -/
def runBinaries (env : WorkerEnv) (logs : List String) : Except FailInfo (List String) :=
  let logs := logs ++
    [("Detected chrome binary: ") ++ env.chromeBin.getD ("<none>"),
     ("Detected chromedriver binary: ") ++ env.driverBin.getD ("<none>")]
  match env.driverBin with
  | none => Except.error
      ⟨"Chromedriver binary not found. Set CHROMEDRIVER_PATH or install chromedriver in the image.",
       logs, false⟩
  | some _ => Except.ok logs

/-- The `driver.get` retry loop (app.py lines 282-292): up to 3
attempts, the exception of attempt 3 is re-raised, earlier failures
back off and retry.  The fuel equals the remaining attempts. -/
def navAux (env : WorkerEnv) : Nat → List String → Nat → Except FailInfo (List String)
  | _, logs, 0 => Except.ok logs
  | attempt, logs, fuel + 1 =>
    if env.navOk attempt then
      Except.ok (logs ++ ["Opened affordablehousing.com (via driver.get)"])
    else
      let logs2 := logs ++ [(s!"driver.get attempt {attempt} failed: ") ++ env.navErr attempt]
      if attempt = 3 then Except.error ⟨env.navErr attempt, logs2, true⟩
      else navAux env (attempt + 1) logs2 fuel

/-- Start-page navigation with retries (app.py lines 281-292). -/
def runNav (env : WorkerEnv) (logs : List String) : Except FailInfo (List String) :=
  navAux env 1 logs 3

/-- The log lines of the six sign-in wait gates, in source order
(app.py lines 294-314). -/
def signinMsgs : List String :=
  ["Clicked homepage Sign In", "Entered email", "Clicked first Sign In button",
   "Entered password", "Clicked final Sign In button", "Login confirmed (dashboard)"]

/-- Runs the sign-in wait gates from step number `s` on; a timed-out
wait raises immediately (fatal for that step). -/
def stepsAux (env : WorkerEnv) : Nat → List String → List String → Except FailInfo (List String)
  | _, [], logs => Except.ok logs
  | s, m :: rest, logs =>
    if env.stepOk s then stepsAux env (s + 1) rest (logs ++ [m])
    else Except.error ⟨env.stepErr s, logs, true⟩

/-- The fixed sign-in sequence (app.py lines 294-314). -/
def runSignin (env : WorkerEnv) (logs : List String) : Except FailInfo (List String) :=
  stepsAux env 0 signinMsgs logs

/-- The tail of the worker from listing navigation on (app.py lines
316-405): scroll, poll, collect, classify, click.  Returns the clicked
count, the clicked addresses and the final log on the success path. -/
def workerTail (env : WorkerEnv) (num : Nat) (logs : List String) :
    Except FailInfo (Nat × List (Option String) × List String) :=
  let logs := logs ++ ["Navigated to https://www.affordablehousing.com/v4/pages/Listing/Listing.aspx"]
  let loops := scrollLoop env.heights DEFAULT_MAX_SCROLL_LOOPS
  let logs := logs ++ [s!"Finished incremental scrolling ({loops} loops)"]
  match pollLoop env.probe jsPollMax with
  | (none, plogs) =>
    let logs := logs ++ plogs ++
      ["[JS POLL RESULT] found_context=None found_count=0",
       "No cards/buttons found - saved screenshot"]
    Except.error ⟨"No listing cards/buttons found after JS polling", logs, true⟩
  | (some found, plogs) =>
    let c := found.2
    let n := env.buttons.length
    let logs := logs ++ plogs ++
      [s!"[JS POLL RESULT] found_context=(main, None) found_count={c}",
       s!"Collected {n} button elements"]
    let bc := collectButtons env.inspectOk env.inspectErr env.buttons 1
    let total := bc.1.length
    let logs := logs ++ bc.2 ++ [s!"Total boostable detected: {total}"]
    match bc.1 with
    | [] =>
      let logs := logs ++ ["No boostable buttons after filtering - saved screenshot"]
      Except.error ⟨"No boostable buttons found to click", logs, true⟩
    | b :: bs =>
      let addrs := ((b :: bs).map Prod.fst).take num
      let k := clickList env.clickOk env.clickErr addrs 0
      Except.ok (k.1, k.2.1, logs ++ k.2.2)

/-- The body of `selenium_boost_worker`'s `try` block (app.py lines
212-405), as an `Except` computation unwinding any raised exception to
the top-level handler. -/
def workerCore (env : WorkerEnv) (num : Nat) :
    Except FailInfo (Nat × List (Option String) × List String) :=
  Except.bind (runPrecheck env ["Starting Selenium worker"]) (fun logs =>
    Except.bind (runBinaries env logs) (fun logs =>
      Except.bind (runNav env logs) (fun logs =>
        Except.bind (runSignin env logs) (fun logs =>
          workerTail env num logs))))

/-- The Boostable Set computed for an oracle: the output of the
classification loop over the collected buttons. -/
def boostableOf (env : WorkerEnv) : List (Option String × String) :=
  (collectButtons env.inspectOk env.inspectErr env.buttons 1).1

/-- The `BoostResponse` pydantic model (app.py lines 49-55). -/
structure BoostResponse where
  success : Bool
  clicked_count : Nat
  clicked_addresses : List (Option String)
  debug_logs : List String
  error : Option String
  screenshot_base64 : Option String
deriving Repr, DecidableEq

/-- `selenium_boost_worker` (app.py lines 206-433): run the `try`
block; on an unwound exception the `except` handler (lines 407-425)
logs the exception and the traceback, captures an error screenshot when
the driver exists, and returns the all-or-nothing failure response
carrying the accumulated log. -/
def selenium_boost_worker (env : WorkerEnv) (num : Nat) : BoostResponse :=
  match workerCore env num with
  | Except.ok r =>
    { success := true, clicked_count := r.1, clicked_addresses := r.2.1,
      debug_logs := r.2.2, error := none, screenshot_base64 := none }
  | Except.error f =>
    if f.driverPresent then
      { success := false, clicked_count := 0, clicked_addresses := [],
        debug_logs := f.logs ++
          [("Unhandled exception: ") ++ f.msg, "traceback",
           "Captured error screenshot (base64)"],
        error := some f.msg, screenshot_base64 := some env.screenshot }
    else
      { success := false, clicked_count := 0, clicked_addresses := [],
        debug_logs := f.logs ++ [("Unhandled exception: ") ++ f.msg, "traceback"],
        error := some f.msg, screenshot_base64 := none }

/-! ### Wait-time plumbing (app.py lines 41-47, 279, 491-503) -/

/-- The `wait_time` field of `BoostRequest` (app.py line 46): an
omitted field gets the default 25, an explicit `null` gets `None`, an
explicit integer is kept. -/
def requestWaitTime (supplied : Option (Option Int)) : Option Int :=
  match supplied with
  | none => some DEFAULT_WAIT_TIME
  | some v => v

/-- Python `x or DEFAULT_WAIT_TIME` on an `int`: `0` is falsy. -/
def pyIntOrDefault (v : Int) (d : Int) : Int :=
  if v = 0 then d else v

/-- `req.wait_time or DEFAULT_WAIT_TIME` at the endpoint
(app.py line 502): `None` and `0` are both falsy. -/
def endpointWaitArg (wt : Option Int) : Int :=
  match wt with
  | none => DEFAULT_WAIT_TIME
  | some v => pyIntOrDefault v DEFAULT_WAIT_TIME

/-- `WebDriverWait(driver, wait_time or DEFAULT_WAIT_TIME)` inside the
worker (app.py line 279). -/
def workerEffectiveWait (wait_time : Int) : Int :=
  pyIntOrDefault wait_time DEFAULT_WAIT_TIME

/-- The wait actually used for a job, through the request model, the
endpoint argument and the worker. -/
def effectiveWait (supplied : Option (Option Int)) : Int :=
  workerEffectiveWait (endpointWaitArg (requestWaitTime supplied))

/-! ### Concrete oracles used by examples, counterexamples and
witnesses -/

/-- A collected button whose text carries the boost keyword and whose
class has no in-progress marker. -/
def btnOne : ButtonInfo :=
  { rawText := "Boost this listing", classAttr := some ("cmn--btn usage-boost-button"),
    address := some ("addr one") }

/-- A second such button with a different resolved address. -/
def btnTwo : ButtonInfo :=
  { rawText := "Boost this listing", classAttr := some ("cmn--btn usage-boost-button"),
    address := some ("addr two") }

/-- An oracle where everything succeeds except the scripted click on
the second selected element: two boostable buttons, first click
succeeds, second raises "boom". -/
def envTwo : WorkerEnv :=
  { skipCheck := false, precheckOk := true, precheckErr := "",
    chromeBin := some ("/usr/bin/chromium"), driverBin := some ("/usr/bin/chromedriver"),
    navOk := fun _ => true, navErr := fun _ => "",
    stepOk := fun _ => true, stepErr := fun _ => "",
    heights := fun _ => 100, probe := fun _ => 5,
    buttons := [btnOne, btnTwo],
    inspectOk := fun _ => true, inspectErr := fun _ => "",
    clickOk := fun i => i == 0, clickErr := fun _ => "boom",
    screenshot := "shot-bytes" }

/-- `envTwo` with a probe that never finds a button. -/
def envZero : WorkerEnv :=
  { envTwo with probe := fun _ => 0 }

/-- `envTwo` with the pre-check skipped and no chromedriver binary
found: the worker fails before the driver exists. -/
def envNoDriver : WorkerEnv :=
  { envTwo with skipCheck := true, chromeBin := none, driverBin := none }

/-- The exception that `envNoDriver` unwinds with. -/
def failNoDriver : FailInfo :=
  { msg := "Chromedriver binary not found. Set CHROMEDRIVER_PATH or install chromedriver in the image.",
    logs := ["Starting Selenium worker",
             "SKIP_NETWORK_CHECK=true -> skipping network pre-check",
             "Detected chrome binary: <none>",
             "Detected chromedriver binary: <none>"],
    driverPresent := false }

/-- The spec's classifier example: boost text, empty class. -/
def btnPlain : ButtonInfo :=
  { rawText := "Boost this listing", classAttr := some (""), address := none }

/-- The spec's classifier example: in-progress wording in the text. -/
def btnProgressText : ButtonInfo :=
  { rawText := "Boost in progress", classAttr := some (""), address := none }

/-- The spec's classifier example: in-progress marker token in the
class attribute. -/
def btnMarkerClass : ButtonInfo :=
  { rawText := "Boost this listing", classAttr := some ("usage-boost-inprogress"),
    address := none }

/-- The height sequence 100, 200, 200, ... of the spec example for the
lazy-load scroller. -/
def exHeights : Nat → Nat :=
  fun n => if n = 0 then 100 else 200

/-- The probe of the spec example for the content-ready poller: 0 for
three polls, then 5. -/
def exProbe : Nat → Nat :=
  fun n => if n < 3 then 0 else 5

/-- The prerequisites for the worker to reach the listing page: the
pre-check is performed and passes, a chromedriver binary is found, the
first `driver.get` attempt succeeds, and all six sign-in wait gates
pass. -/
def reachesListing (env : WorkerEnv) : Prop :=
  env.skipCheck = false ∧ env.precheckOk = true ∧ env.driverBin.isSome = true ∧
    env.navOk 1 = true ∧ ∀ s, s < 6 → env.stepOk s = true

/-- The log accumulated by a `reachesListing` run when it reaches the
listing page. -/
def goodLogs (env : WorkerEnv) : List String :=
  ["Starting Selenium worker",
   "Connectivity quick-check to https://www.affordablehousing.com/",
   "HEAD status_code=200",
   ("Detected chrome binary: ") ++ env.chromeBin.getD ("<none>"),
   ("Detected chromedriver binary: ") ++ env.driverBin.getD ("<none>"),
   "Opened affordablehousing.com (via driver.get)"] ++ signinMsgs

/-! ## Helper lemmas -/

theorem except_bind_ok {ε α β : Type} {x : Except ε α} {f : α → Except ε β} {b : β}
    (h : Except.bind x f = Except.ok b) : ∃ a, x = Except.ok a ∧ f a = Except.ok b := by
  cases x with
  | error e => simp [Except.bind] at h
  | ok a => exact ⟨a, rfl, h⟩

theorem runPrecheck_ok (env : WorkerEnv) (logs : List String)
    (h1 : env.skipCheck = false) (h2 : env.precheckOk = true) :
    runPrecheck env logs = Except.ok (logs ++
      ["Connectivity quick-check to https://www.affordablehousing.com/",
       "HEAD status_code=200"]) := by
  simp [runPrecheck, h1, h2]

theorem runBinaries_ok (env : WorkerEnv) (logs : List String)
    (h : env.driverBin.isSome = true) :
    runBinaries env logs = Except.ok (logs ++
      [("Detected chrome binary: ") ++ env.chromeBin.getD ("<none>"),
       ("Detected chromedriver binary: ") ++ env.driverBin.getD ("<none>")]) := by
  cases hd : env.driverBin with
  | none => rw [hd] at h; simp at h
  | some d => simp [runBinaries, hd]

theorem runNav_ok (env : WorkerEnv) (logs : List String) (h : env.navOk 1 = true) :
    runNav env logs = Except.ok (logs ++ ["Opened affordablehousing.com (via driver.get)"]) := by
  simp [runNav, navAux, h]

theorem runSignin_ok (env : WorkerEnv) (logs : List String)
    (h : ∀ s, s < 6 → env.stepOk s = true) :
    runSignin env logs = Except.ok (logs ++ signinMsgs) := by
  have h0 := h 0 (by omega)
  have h1 := h 1 (by omega)
  have h2 := h 2 (by omega)
  have h3 := h 3 (by omega)
  have h4 := h 4 (by omega)
  have h5 := h 5 (by omega)
  simp [runSignin, signinMsgs, stepsAux, h0, h1, h2, h3, h4, h5]

theorem workerCore_reaches (env : WorkerEnv) (num : Nat) (h : reachesListing env) :
    workerCore env num = workerTail env num (goodLogs env) := by
  obtain ⟨h1, h2, h3, h4, h5⟩ := h
  rw [workerCore, runPrecheck_ok env _ h1 h2]
  show Except.bind _ _ = _
  rw [show ∀ {β : Type} (a : List String) (f : List String → Except FailInfo β),
        Except.bind (Except.ok a) f = f a from fun _ _ => rfl]
  rw [runBinaries_ok env _ h3]
  rw [show ∀ {β : Type} (a : List String) (f : List String → Except FailInfo β),
        Except.bind (Except.ok a) f = f a from fun _ _ => rfl]
  rw [runNav_ok env _ h4]
  rw [show ∀ {β : Type} (a : List String) (f : List String → Except FailInfo β),
        Except.bind (Except.ok a) f = f a from fun _ _ => rfl]
  rw [runSignin_ok env _ h5]
  rw [show ∀ {β : Type} (a : List String) (f : List String → Except FailInfo β),
        Except.bind (Except.ok a) f = f a from fun _ _ => rfl]
  simp [goodLogs]

theorem clickList_logs_length (okf : Nat → Bool) (err : Nat → String) :
    ∀ (items : List (Option String)) (i : Nat),
      (clickList okf err items i).2.2.length = items.length := by
  intro items
  induction items with
  | nil => intro i; simp [clickList]
  | cons a rest ih =>
    intro i
    cases h : okf i with
    | false => simp [clickList, h, ih]
    | true => simp [clickList, h, ih]

theorem clickList_addresses (okf : Nat → Bool) (err : Nat → String) :
    ∀ (items : List (Option String)) (i : Nat),
      (clickList okf err items i).2.1 =
        ((items.enumFrom i).filter (fun p => okf p.1)).map Prod.snd := by
  intro items
  induction items with
  | nil => intro i; simp [clickList]
  | cons a rest ih =>
    intro i
    cases h : okf i with
    | false => simp [clickList, List.enumFrom_cons, List.filter_cons, h, ih]
    | true => simp [clickList, List.enumFrom_cons, List.filter_cons, h, ih]

theorem clickList_count (okf : Nat → Bool) (err : Nat → String) :
    ∀ (items : List (Option String)) (i : Nat),
      (clickList okf err items i).1 =
        ((items.enumFrom i).filter (fun p => okf p.1)).length := by
  intro items
  induction items with
  | nil => intro i; simp [clickList]
  | cons a rest ih =>
    intro i
    cases h : okf i with
    | false => simp [clickList, List.enumFrom_cons, List.filter_cons, h, ih]
    | true => simp [clickList, List.enumFrom_cons, List.filter_cons, h, ih]

theorem clickList_count_le (okf : Nat → Bool) (err : Nat → String)
    (items : List (Option String)) (i : Nat) :
    (clickList okf err items i).1 ≤ items.length := by
  rw [clickList_count]
  calc ((items.enumFrom i).filter (fun p => okf p.1)).length
      ≤ (items.enumFrom i).length := List.length_filter_le _ _
    _ = items.length := List.enumFrom_length

theorem scrollAux_spec (heights : Nat → Nat) :
    ∀ (fuel l : Nat),
      scrollAux heights (heights l) l fuel =
        (match (List.range' l fuel).find? (fun i => heights (i + 1) == heights i) with
         | some i => i + 1
         | none => l + fuel) := by
  intro fuel
  induction fuel with
  | zero => intro l; simp [scrollAux]
  | succ n ih =>
    intro l
    rw [List.range'_succ]
    by_cases h : heights (l + 1) = heights l
    · have hb : (heights (l + 1) == heights l) = true := by simp [h]
      simp [scrollAux, h, List.find?, hb]
    · have hb : (heights (l + 1) == heights l) = false := by simp [h]
      have hstep : scrollAux heights (heights l) l (n + 1)
          = scrollAux heights (heights (l + 1)) (l + 1) n := by
        simp [scrollAux, h]
      have hcons : (l :: List.range' (l + 1) n).find? (fun i => heights (i + 1) == heights i)
          = (List.range' (l + 1) n).find? (fun i => heights (i + 1) == heights i) := by
        simp [List.find?, hb]
      rw [hstep, ih (l + 1), hcons]
      cases hf : (List.range' (l + 1) n).find? (fun i => heights (i + 1) == heights i) with
      | some i => rfl
      | none => show l + 1 + n = l + (n + 1); omega

theorem pollAux_spec (probe : Nat → Nat) :
    ∀ (fuel i : Nat),
      pollAux probe i fuel =
        (match (List.range' i fuel).find? (fun j => decide (0 < probe j)) with
         | some j => (some (j, probe j), (List.range' i (j + 1 - i)).map (fun k => pollEntry (probe k)))
         | none => (none, (List.range' i fuel).map (fun k => pollEntry (probe k)))) := by
  intro fuel
  induction fuel with
  | zero => intro i; simp [pollAux]
  | succ n ih =>
    intro i
    rw [List.range'_succ]
    by_cases h : 0 < probe i
    · have hb : (decide (0 < probe i)) = true := by simp [h]
      have : i + 1 - i = 1 := by omega
      simp [pollAux, h, List.find?, hb, this, List.range'_one]
    · have hb : (decide (0 < probe i)) = false := by simp [h]
      have hstep : pollAux probe i (n + 1)
          = (((pollAux probe (i + 1) n).1), pollEntry (probe i) :: (pollAux probe (i + 1) n).2) := by
        simp [pollAux, h]
      rw [hstep, ih (i + 1), List.find?, hb]
      cases hf : (List.range' (i + 1) n).find? (fun j => decide (0 < probe j)) with
      | some j =>
        have hj : i + 1 ≤ j := by
          have := List.mem_range'_1.mp (List.mem_of_find?_eq_some hf)
          omega
        have e1 : j + 1 - i = (j + 1 - (i + 1)) + 1 := by omega
        simp only [e1, List.range'_succ, List.map_cons]
      | none => simp

theorem inProgress_false_of_actionable {b : ButtonInfo} (h : actionableOf b = true) :
    inProgressOf b = false := by
  unfold actionableOf at h
  cases hip : inProgressOf b with
  | false => rfl
  | true => rw [hip] at h; simp at h

theorem collectButtons_mem (insp : Nat → Bool) (ierr : Nat → String) :
    ∀ (bs : List ButtonInfo) (idx : Nat) (e : Option String × String),
      e ∈ (collectButtons insp ierr bs idx).1 →
      ∃ k b, (k, b) ∈ bs.enumFrom idx ∧ insp k = true ∧ actionableOf b = true ∧
        inProgressOf b = false ∧ e = (b.address, normOf b) := by
  intro bs
  induction bs with
  | nil => intro idx e h; simp [collectButtons] at h
  | cons b rest ih =>
    intro idx e h
    have tailcase : e ∈ (collectButtons insp ierr rest (idx + 1)).1 →
        ∃ k b2, (k, b2) ∈ (b :: rest).enumFrom idx ∧ insp k = true ∧ actionableOf b2 = true ∧
          inProgressOf b2 = false ∧ e = (b2.address, normOf b2) := by
      intro hm
      obtain ⟨k, b2, hk, p1, p2, p3, p4⟩ := ih (idx + 1) e hm
      exact ⟨k, b2, by simp [List.enumFrom_cons]; right; exact hk, p1, p2, p3, p4⟩
    cases hi : insp idx with
    | false =>
      rw [collectButtons] at h
      simp only [hi, Bool.false_eq_true, if_false] at h
      exact tailcase h
    | true =>
      cases ha : actionableOf b with
      | false =>
        rw [collectButtons] at h
        simp only [hi, ha, Bool.false_eq_true, if_true, if_false] at h
        exact tailcase h
      | true =>
        rw [collectButtons] at h
        simp only [hi, ha, if_true] at h
        rcases List.mem_cons.mp h with he | he
        · exact ⟨idx, b, by simp [List.enumFrom_cons], hi, ha,
            inProgress_false_of_actionable ha, he⟩
        · exact tailcase he

theorem workerCore_ok_clicks (env : WorkerEnv) (num : Nat)
    (r : Nat × List (Option String) × List String)
    (h : workerCore env num = Except.ok r) :
    r.1 = (clickList env.clickOk env.clickErr (((boostableOf env).map Prod.fst).take num) 0).1 ∧
    r.2.1 = (clickList env.clickOk env.clickErr (((boostableOf env).map Prod.fst).take num) 0).2.1 := by
  rw [workerCore] at h
  obtain ⟨l1, _, h⟩ := except_bind_ok h
  obtain ⟨l2, _, h⟩ := except_bind_ok h
  obtain ⟨l3, _, h⟩ := except_bind_ok h
  obtain ⟨l4, _, h⟩ := except_bind_ok h
  rw [workerTail] at h
  cases hp : pollLoop env.probe jsPollMax with
  | mk res plogs =>
    rw [hp] at h
    cases res with
    | none => simp at h
    | some found =>
      simp only [] at h
      cases hb : (collectButtons env.inspectOk env.inspectErr env.buttons 1).1 with
      | nil => rw [hb] at h; simp at h
      | cons b bs =>
        rw [hb] at h
        simp only [Except.ok.injEq] at h
        rw [boostableOf, hb]
        constructor
        · rw [← h]
        · rw [← h]

theorem inProgress_agrees (b : ButtonInfo) : inProgressOf b = specInProgress b := by
  simp [inProgressOf, specInProgress, specInProgressKeywords, Bool.or_assoc]

theorem actionable_agrees (b : ButtonInfo) : actionableOf b = specActionable b := by
  simp [actionableOf, specActionable, inProgress_agrees]

/-! ## Claims -/

/-- Claim C1, counterexample: the worker performs no popup-dismissal
phase at all — in particular none between the start-page navigation and
the sign-in steps.  After `driver.get` succeeds (app.py line 287) the
very next action is the sign-in link click (line 294). -/
theorem claim1_counterexample : Phase.popupDismiss ∉ workerPhases := by
  simp [workerPhases]

/-- Claim C1 (amended): after the start-page navigation succeeds, the
workflow proceeds immediately to the sign-in steps; no Popup Dismissal
Engine exists or is invoked anywhere in the worker. -/
theorem claim1_amended :
    workerPhases.count Phase.popupDismiss = 0 ∧
    workerPhases.indexOf Phase.clickSignInLink = workerPhases.indexOf Phase.navigateStart + 1 := by
  decide

/-- Claim C2, counterexample: the per-element click procedure contains
no native pointer click at all, so the claimed escalation ladder
(native click, then scripted click, then overlay removal and native
retry) is not what the code does. -/
theorem claim2_counterexample : ClickStrategy.nativeClick ∉ clickProcedure := by
  simp [clickProcedure]

/-- Claim C2 (amended): each selected element is clicked by a scripted
scroll-into-view, a pause, and a single scripted click; there is no
native pointer click, no overlay removal, and no retry — the scripted
click is attempted exactly once. -/
theorem claim2_amended :
    clickProcedure = [ClickStrategy.scrollIntoViewScript, ClickStrategy.pauseStep,
      ClickStrategy.scriptedClick] ∧
    ClickStrategy.overlayRemoval ∉ clickProcedure ∧
    clickProcedure.count ClickStrategy.scriptedClick = 1 :=
  ⟨by decide, by simp [clickProcedure], by decide⟩

/-- Claim C3, counterexample: with two boostable buttons and a
requested count of 2, both clicks are attempted (min 2 2 = 2) but the
second click fails, and the assembled label sequence has length 1, not
2 — a failed click contributes no entry. -/
theorem claim3_counterexample :
    (selenium_boost_worker envTwo 2).success = true ∧
    (boostableOf envTwo).length = 2 ∧
    min 2 (boostableOf envTwo).length = 2 ∧
    (selenium_boost_worker envTwo 2).clicked_addresses.length = 1 := by
  decide

/-- Claim C3 (amended): each successful click contributes exactly one
entry to the label sequence, in click order; failed clicks contribute
no entry; hence the label sequence has length equal to the number of
successful clicks, not the number attempted. -/
theorem claim3_amended :
    ∀ (okf : Nat → Bool) (err : Nat → String) (items : List (Option String)) (i : Nat),
      (clickList okf err items i).2.1.length = (clickList okf err items i).1 ∧
      (clickList okf err items i).2.1 =
        ((items.enumFrom i).filter (fun p => okf p.1)).map Prod.snd := by
  intro okf err items i
  refine ⟨?_, clickList_addresses okf err items i⟩
  rw [clickList_addresses, clickList_count, List.length_map]

/-- Claim C4: any exception unwinding to the worker's top-level handler
yields a well-formed response with success=false, a clicked count of
zero and an empty label sequence, carrying the accumulated log followed
by the exception entries, the exception text as the error description,
and an error screenshot exactly when the driver existed. -/
theorem claim4_failure_result (env : WorkerEnv) (num : Nat) (f : FailInfo)
    (h : workerCore env num = Except.error f) :
    selenium_boost_worker env num =
      (if f.driverPresent then
        { success := false, clicked_count := 0, clicked_addresses := [],
          debug_logs := f.logs ++
            [("Unhandled exception: ") ++ f.msg, "traceback",
             "Captured error screenshot (base64)"],
          error := some f.msg, screenshot_base64 := some env.screenshot }
       else
        { success := false, clicked_count := 0, clicked_addresses := [],
          debug_logs := f.logs ++ [("Unhandled exception: ") ++ f.msg, "traceback"],
          error := some f.msg, screenshot_base64 := none }) := by
  unfold selenium_boost_worker
  rw [h]

/-- Claim C4 witness: the worker with no chromedriver binary fails
before the driver exists and returns the all-or-nothing failure
response carrying the accumulated log. -/
theorem claim4_witness :
    selenium_boost_worker envNoDriver 1 =
      { success := false, clicked_count := 0, clicked_addresses := [],
        debug_logs := failNoDriver.logs ++
          [("Unhandled exception: ") ++ failNoDriver.msg, "traceback"],
        error := some failNoDriver.msg, screenshot_base64 := none } :=
  claim4_failure_result envNoDriver 1 failNoDriver rfl

/-- Claim C5: on every successful job the attempted candidates are the
first `min num |Boostable Set|` boostable elements in first-encountered
order; the clicked count never exceeds the requested count nor the size
of the Boostable Set; and the reported addresses are exactly those of
the successfully clicked candidates, in order. -/
theorem claim5_bounds (env : WorkerEnv) (num : Nat)
    (h : (selenium_boost_worker env num).success = true) :
    ((((boostableOf env).map Prod.fst).take num).length = min num (boostableOf env).length) ∧
    (selenium_boost_worker env num).clicked_count ≤ num ∧
    (selenium_boost_worker env num).clicked_count ≤ (boostableOf env).length ∧
    (selenium_boost_worker env num).clicked_addresses =
      (((((boostableOf env).map Prod.fst).take num).enumFrom 0).filter
        (fun p => env.clickOk p.1)).map Prod.snd := by
  cases hc : workerCore env num with
  | error f =>
    exfalso
    unfold selenium_boost_worker at h
    rw [hc] at h
    cases hd : f.driverPresent <;> simp [hd] at h
  | ok r =>
    obtain ⟨h1, h2⟩ := workerCore_ok_clicks env num r hc
    have hresp : selenium_boost_worker env num =
        { success := true, clicked_count := r.1, clicked_addresses := r.2.1,
          debug_logs := r.2.2, error := none, screenshot_base64 := none } := by
      unfold selenium_boost_worker; rw [hc]
    have hlen : (((boostableOf env).map Prod.fst).take num).length
        = min num (boostableOf env).length := by
      rw [List.length_take, List.length_map]
    have hle : r.1 ≤ min num (boostableOf env).length := by
      rw [h1, ← hlen]
      exact clickList_count_le _ _ _ _
    refine ⟨hlen, ?_, ?_, ?_⟩
    · rw [hresp]
      exact le_trans hle (Nat.min_le_left _ _)
    · rw [hresp]
      exact le_trans hle (Nat.min_le_right _ _)
    · rw [hresp]
      show r.2.1 = _
      rw [h2, clickList_addresses]

/-- Claim C5 witness: the bounds instantiated on a successful concrete
job with two boostable elements and requested count 2. -/
theorem claim5_witness :
    ((((boostableOf envTwo).map Prod.fst).take 2).length = min 2 (boostableOf envTwo).length) ∧
    (selenium_boost_worker envTwo 2).clicked_count ≤ 2 ∧
    (selenium_boost_worker envTwo 2).clicked_count ≤ (boostableOf envTwo).length ∧
    (selenium_boost_worker envTwo 2).clicked_addresses =
      (((((boostableOf envTwo).map Prod.fst).take 2).enumFrom 0).filter
        (fun p => envTwo.clickOk p.1)).map Prod.snd :=
  claim5_bounds envTwo 2 (by decide)

/-- Claim C6: the classifier marks an element in progress exactly when
its lowercase class contains the marker token or its normalised text
contains an in-progress keyword, and actionable exactly when the
normalised text contains the boost keyword and it is not in progress;
the spec's concrete examples hold; and every member of the Boostable
Set comes from a button classified actionable, hence not in progress. -/
theorem claim6_classifier :
    (∀ b : ButtonInfo, inProgressOf b = specInProgress b) ∧
    (∀ b : ButtonInfo, actionableOf b = specActionable b) ∧
    actionableOf btnPlain = true ∧
    actionableOf btnProgressText = false ∧
    inProgressOf btnProgressText = true ∧
    actionableOf btnMarkerClass = false ∧
    (∀ (insp : Nat → Bool) (ierr : Nat → String) (bs : List ButtonInfo) (idx : Nat)
        (e : Option String × String),
      e ∈ (collectButtons insp ierr bs idx).1 →
      ∃ k b, (k, b) ∈ bs.enumFrom idx ∧ insp k = true ∧ actionableOf b = true ∧
        inProgressOf b = false ∧ e = (b.address, normOf b)) :=
  ⟨inProgress_agrees, actionable_agrees, by decide, by decide, by decide, by decide,
    fun insp ierr => collectButtons_mem insp ierr⟩

/-- Claim C6 witness: the Boostable-membership implication instantiated
on a concrete actionable button. -/
theorem claim6_witness :
    ∃ k b, (k, b) ∈ ([btnOne].enumFrom 1) ∧ (fun (_ : Nat) => true) k = true ∧
      actionableOf b = true ∧ inProgressOf b = false ∧
      ((some ("addr one") : Option String), ("boost this listing" : String))
        = (b.address, normOf b) :=
  claim6_classifier.2.2.2.2.2.2 (fun _ => true) (fun _ => ("")) [btnOne] 1
    ((some ("addr one")), ("boost this listing")) (by decide)

/-- Claim C7: the click loop writes one log entry per selected element
and counts exactly the successful ones, so one element's failure never
aborts the rest; concretely, with two attempted clicks of which the
second fails, the job still reports success with clicked_count 1 and
the failure appears only in the log. -/
theorem claim7_isolation :
    (∀ (okf : Nat → Bool) (err : Nat → String) (items : List (Option String)) (i : Nat),
      (clickList okf err items i).2.2.length = items.length) ∧
    (∀ (okf : Nat → Bool) (err : Nat → String) (items : List (Option String)) (i : Nat),
      (clickList okf err items i).1 =
        ((items.enumFrom i).filter (fun p => okf p.1)).length) ∧
    (selenium_boost_worker envTwo 2).success = true ∧
    (selenium_boost_worker envTwo 2).clicked_count = 1 ∧
    (selenium_boost_worker envTwo 2).error = none ∧
    ("Error clicking boost #2: boom") ∈ (selenium_boost_worker envTwo 2).debug_logs :=
  ⟨clickList_logs_length, clickList_count, by decide, by decide, by decide, by decide⟩

/-- Claim C8: the scroller stops at the first iteration whose height
reading equals the previous one, or at the iteration cap, whichever
comes first; on the height sequence 100, 200, 200 it performs exactly 2
iterations, well below the cap of 60. -/
theorem claim8_scroller :
    (∀ (heights : Nat → Nat) (maxLoops : Nat),
      scrollLoop heights maxLoops = specScrollStop heights maxLoops) ∧
    scrollLoop exHeights DEFAULT_MAX_SCROLL_LOOPS = 2 ∧
    specScrollStop exHeights DEFAULT_MAX_SCROLL_LOOPS = 2 := by
  refine ⟨?_, by decide, by decide⟩
  intro heights maxLoops
  rw [scrollLoop, scrollAux_spec heights maxLoops 0, specScrollStop, List.range_eq_range']
  cases hf : (List.range' 0 maxLoops).find? (fun i => heights (i + 1) == heights i) with
  | some i => rfl
  | none => show 0 + maxLoops = maxLoops; omega

/-- Claim C9: the poller logs every probe reading and returns the first
positive reading with its count, or nothing when no reading in the
window is positive; on the probe 0, 0, 0, 5 it returns on the fourth
poll; and when every reading is zero the job fails fatally with the
poll-timeout error after capturing a diagnostic screenshot. -/
theorem claim9_poller :
    (∀ (probe : Nat → Nat) (m : Nat),
      pollLoop probe m =
        (match (List.range m).find? (fun j => decide (0 < probe j)) with
         | some j => (some (j, probe j), (List.range (j + 1)).map (fun k => pollEntry (probe k)))
         | none => (none, (List.range m).map (fun k => pollEntry (probe k))))) ∧
    pollLoop exProbe jsPollMax =
      (some (3, 5), [pollEntry 0, pollEntry 0, pollEntry 0, pollEntry 5]) ∧
    (∀ (env : WorkerEnv) (num : Nat), reachesListing env →
      (∀ i, i < jsPollMax → env.probe i = 0) →
      (selenium_boost_worker env num).success = false ∧
      (selenium_boost_worker env num).error
        = some ("No listing cards/buttons found after JS polling") ∧
      (selenium_boost_worker env num).screenshot_base64 = some env.screenshot) := by
  refine ⟨?_, by decide, ?_⟩
  · intro probe m
    rw [pollLoop, pollAux_spec probe m 0]
    simp only [List.range_eq_range', Nat.sub_zero]
  · intro env num hg hz
    have hnone : (List.range' 0 jsPollMax).find? (fun j => decide (0 < env.probe j)) = none := by
      apply List.find?_eq_none.mpr
      intro x hx
      have hx2 : x < jsPollMax := by
        have := List.mem_range'_1.mp hx
        omega
      simp [hz x hx2]
    have hpoll : pollLoop env.probe jsPollMax
        = (none, (List.range' 0 jsPollMax).map (fun k => pollEntry (env.probe k))) := by
      rw [pollLoop, pollAux_spec env.probe jsPollMax 0, hnone]
    unfold selenium_boost_worker
    rw [workerCore_reaches env num hg]
    unfold workerTail
    rw [hpoll]
    simp

/-- Claim C9 witness: the fatal poll-timeout path instantiated on a
concrete oracle whose probe always reads zero. -/
theorem claim9_witness :
    (selenium_boost_worker envZero 1).success = false ∧
    (selenium_boost_worker envZero 1).error
      = some ("No listing cards/buttons found after JS polling") ∧
    (selenium_boost_worker envZero 1).screenshot_base64 = some envZero.screenshot :=
  claim9_poller.2.2 envZero 1 ⟨rfl, rfl, rfl, rfl, fun _ _ => rfl⟩ (fun _ _ => rfl)

/-- Claim C10: a per-step wait supplied as 0 — and likewise an omitted
or null wait — is replaced by the default of 25 at the request model,
at the endpoint's truthiness fallback and at the worker's truthiness
fallback, so an explicit zero timeout is never honoured. -/
theorem claim10_wait :
    DEFAULT_WAIT_TIME = 25 ∧
    effectiveWait (some (some 0)) = DEFAULT_WAIT_TIME ∧
    effectiveWait none = DEFAULT_WAIT_TIME ∧
    effectiveWait (some none) = DEFAULT_WAIT_TIME ∧
    endpointWaitArg (some 0) = DEFAULT_WAIT_TIME ∧
    workerEffectiveWait 0 = DEFAULT_WAIT_TIME := by
  decide

end BoostApp
